import Mathlib

/-!
Verification of the stock-analysis MCP server (`stock_mcp_server.py`).

The embedding models, straight from the source:
  * `parse_date`            — the mmddyyyy → yyyy-mm-dd date codec;
  * `get_stock_data`        — per-ticker statistics over a fetched OHLCV series;
  * `plot_stock_price`      — chart rendering, returning a base64 data URI;
  * `compare_stocks`        — two-leg comparison with error aggregation;
  * `read_stock_resource`   — the formatted snapshot resource.

External collaborators (yfinance fetch, matplotlib render) are modelled as
`Except String _` inputs: `.error e` models the collaborator raising an
exception whose text is `e`.  Python floats are idealised as rationals; the
single place where a non-finite float can arise (the percentage-change
division) is modelled by the `PyFloat` type, which tracks inf / -inf / nan
exactly as IEEE division by zero produces them.
-/

/-- The ten decimal digit characters; `myDigitChar d` is the character of a
digit `d < 10` (out of range yields a non-digit placeholder). -/
def myDigitChar : Nat → Char
  | 0 => '0' | 1 => '1' | 2 => '2' | 3 => '3' | 4 => '4'
  | 5 => '5' | 6 => '6' | 7 => '7' | 8 => '8' | 9 => '9'
  | _ => '*'

/-- Render a number as exactly two decimal digit characters (zero padded),
for values below 100 — models the `%m` / `%d` fields of `strftime`. -/
def render2 (n : Nat) : List Char := [myDigitChar (n / 10), myDigitChar (n % 10)]

/-- Render a number as exactly four decimal digit characters (zero padded),
for values below 10000 — models the `%Y` field of `strftime` (CPython
documents `%Y` as the zero-padded year `0001, ..., 9999`). -/
def render4 (n : Nat) : List Char :=
  [myDigitChar (n / 1000), myDigitChar (n / 100 % 10),
   myDigitChar (n / 10 % 10), myDigitChar (n % 10)]

/-- Model of Python `int(s)` restricted to strings of decimal digits: `some`
of the value when the character list is non-empty and all digits, else
`none` (the `ValueError` case).  (Python `int` additionally tolerates
signs/whitespace, which no claim here exercises.) -/
def pyIntDigits (l : List Char) : Option Nat :=
  if l.isEmpty then none
  else if l.all Char.isDigit then
    some (l.foldl (fun a c => a * 10 + (c.toNat - 48)) 0)
  else none

/-- Gregorian leap-year test, as implemented by Python `datetime`. -/
def isLeapYear (y : Nat) : Bool :=
  y % 4 == 0 && (y % 100 != 0 || y % 400 == 0)

/-- Days in a month, as validated by the `datetime` constructor. -/
def daysInMonth (y m : Nat) : Nat :=
  if m = 2 then (if isLeapYear y then 29 else 28)
  else if m = 4 ∨ m = 6 ∨ m = 9 ∨ m = 11 then 30
  else 31

/-- The argument check of `datetime(year, month, day)`: the constructor
raises `ValueError` exactly when this is false. -/
def datetimeValid (y m d : Nat) : Prop :=
  1 ≤ y ∧ y ≤ 9999 ∧ 1 ≤ m ∧ m ≤ 12 ∧ 1 ≤ d ∧ d ≤ daysInMonth y m

instance (y m d : Nat) : Decidable (datetimeValid y m d) := by
  unfold datetimeValid; infer_instance

/-- Model of `dt.strftime('%Y-%m-%d')`: the ISO date string. -/
def isoFormat (y m d : Nat) : String :=
  String.mk (render4 y ++ '-' :: render2 m ++ '-' :: render2 d)

/-- The error message raised by `parse_date` on invalid input. -/
def invalidDateMsg (date_str : String) : String :=
  "Invalid date format: " ++ date_str ++ ". Expected mmddyyyy format."

/-- Embedding of `parse_date` (stock_mcp_server.py, lines 11–25).
`month = date_str[:2]`, `day = date_str[2:4]`, `year = date_str[4:]`
(Python slices clamp, so no length check happens); the three `int`
conversions and the `datetime` constructor are the only failure points,
both mapped to the single `ValueError` the function re-raises. -/
def parse_date (date_str : String) : Except String String :=
  let cs := date_str.toList
  let month := cs.take 2
  let day := (cs.drop 2).take 2
  let year := cs.drop 4
  match pyIntDigits year, pyIntDigits month, pyIntDigits day with
  | some y, some m, some d =>
    if datetimeValid y m d then .ok (isoFormat y m d)
    else .error (invalidDateMsg date_str)
  | _, _, _ => .error (invalidDateMsg date_str)

deriving instance DecidableEq for Except

/-- The floor of a rational, computed by floor division of numerator by
denominator (kept kernel-reducible for concrete evaluation). -/
def ratFloor (q : ℚ) : ℤ := q.num.fdiv q.den

/-- Round to the nearest integer, ties to the even integer — the rounding
mode of Python `round` (floats idealised as rationals). -/
def roundHalfEven (q : ℚ) : ℤ :=
  if q - ratFloor q < 1 / 2 then ratFloor q
  else if 1 / 2 < q - ratFloor q then ratFloor q + 1
  else if ratFloor q % 2 = 0 then ratFloor q else ratFloor q + 1

/-- Model of Python `round(x, 2)`. -/
def round2 (q : ℚ) : ℚ := (roundHalfEven (q * 100) : ℚ) / 100

/-- Model of Python `int(x)` on a float: truncation toward zero. -/
def pyIntTrunc (q : ℚ) : ℤ :=
  if q < 0 then -ratFloor (-q) else ratFloor q

/-- A Python/numpy float value on the percentage-change path: either a
finite value (idealised as a rational) or one of the non-finite floats
that IEEE division by zero produces. -/
inductive PyFloat where
  | finite : ℚ → PyFloat
  | inf : PyFloat
  | ninf : PyFloat
  | nan : PyFloat
deriving DecidableEq, Repr

/-- numpy float division `a / b`: division by zero yields inf / -inf / nan
(not an exception). -/
def PyFloat.div (a b : ℚ) : PyFloat :=
  if b = 0 then (if 0 < a then .inf else if a < 0 then .ninf else .nan)
  else .finite (a / b)

/-- Float subtraction of a finite constant: non-finite values absorb. -/
def PyFloat.sub (x : PyFloat) (q : ℚ) : PyFloat :=
  match x with
  | .finite a => .finite (a - q)
  | y => y

/-- Float multiplication by a finite constant. -/
def PyFloat.mul (x : PyFloat) (q : ℚ) : PyFloat :=
  match x with
  | .finite a => .finite (a * q)
  | .inf => if 0 < q then .inf else if q < 0 then .ninf else .nan
  | .ninf => if 0 < q then .ninf else if q < 0 then .inf else .nan
  | .nan => .nan

/-- Float subtraction of two float values (for the performance gap). -/
def PyFloat.subF : PyFloat → PyFloat → PyFloat
  | .nan, _ => .nan
  | _, .nan => .nan
  | .inf, .inf => .nan
  | .inf, _ => .inf
  | .ninf, .ninf => .nan
  | .ninf, _ => .ninf
  | .finite _, .inf => .ninf
  | .finite _, .ninf => .inf
  | .finite a, .finite b => .finite (a - b)

/-- `round(x, 2)` on a float: the identity on non-finite values. -/
def PyFloat.round2F (x : PyFloat) : PyFloat :=
  match x with
  | .finite a => .finite (round2 a)
  | y => y

/-- Python `>` on floats: any comparison with nan is false. -/
def PyFloat.gt : PyFloat → PyFloat → Bool
  | .nan, _ => false
  | _, .nan => false
  | .inf, .inf => false
  | .inf, _ => true
  | _, .inf => false
  | .ninf, _ => false
  | .finite _, .ninf => true
  | .finite a, .finite b => decide (b < a)

/-- One row of the OHLCV table returned by `stock.history` (fields are the
pandas column names). -/
structure PriceRecord where
  Open : ℚ
  High : ℚ
  Low : ℚ
  Close : ℚ
  Volume : ℚ
deriving DecidableEq, Repr

/-- `column.iloc[0]` of a non-empty column. -/
def colFirst (l : List ℚ) : ℚ := l.headD 0

/-- `column.iloc[-1]` of a non-empty column. -/
def colLast (l : List ℚ) : ℚ := l.getLastD 0

/-- `column.max()` of a non-empty column. -/
def colMax : List ℚ → ℚ
  | [] => 0
  | x :: xs => xs.foldl max x

/-- `column.min()` of a non-empty column. -/
def colMin : List ℚ → ℚ
  | [] => 0
  | x :: xs => xs.foldl min x

/-- `column.mean()` of a non-empty column. -/
def colMean (l : List ℚ) : ℚ := l.sum / (l.length : ℚ)

/-- The statistics dictionary built by `get_stock_data` (lines 57–71).
`percentage_change` is a `PyFloat` because its division can produce a
non-finite float; every other numeric field is finite by construction. -/
structure StockStats where
  ticker : String
  name : String
  start_date : String
  end_date : String
  data_points : Nat
  opening_price : ℚ
  closing_price : ℚ
  highest_price : ℚ
  lowest_price : ℚ
  average_price : ℚ
  price_change : ℚ
  percentage_change : PyFloat
  average_volume : ℤ
deriving DecidableEq, Repr

/-- The result of `get_stock_data`: either the statistics dictionary or an
error dictionary `{error, ticker, name}` (both the empty-series dictionary
of lines 50–54 and the exception dictionary of lines 76–80). -/
inductive StockDataResult where
  | ok : StockStats → StockDataResult
  | error : String → String → String → StockDataResult
deriving DecidableEq, Repr

/-- The `error` field of a `StockDataResult`, when present — models the
Python membership test `'error' in stock_data` plus `.get('error', ...)`. -/
def StockDataResult.errorMsg : StockDataResult → Option String
  | .ok _ => none
  | .error e _ _ => some e

/-- The empty-series message of `get_stock_data` (line 51). -/
def noDataMsg (ticker : String) : String :=
  "No data found for ticker " ++ ticker ++ " in the specified date range"

/-- Embedding of `get_stock_data` (lines 27–80).  `fetch` is the outcome of
`yf.Ticker(ticker).history(...)`: `.ok data` a returned series, `.error e`
the library raising.  The `try` block evaluates `parse_date` twice, then
the fetch; any exception among these lands in the `except` clause
(lines 75–80). -/
def get_stock_data (ticker name start_date end_date : String)
    (fetch : Except String (List PriceRecord)) : StockDataResult :=
  match parse_date start_date with
  | .error e => .error ("Failed to fetch data: " ++ e) ticker name
  | .ok start_formatted =>
    match parse_date end_date with
    | .error e => .error ("Failed to fetch data: " ++ e) ticker name
    | .ok end_formatted =>
      match fetch with
      | .error e => .error ("Failed to fetch data: " ++ e) ticker name
      | .ok data =>
        if data.isEmpty then .error (noDataMsg ticker) ticker name
        else .ok {
          ticker := ticker
          name := name
          start_date := start_formatted
          end_date := end_formatted
          data_points := data.length
          opening_price := round2 (colFirst (data.map (·.Open)))
          closing_price := round2 (colLast (data.map (·.Close)))
          highest_price := round2 (colMax (data.map (·.High)))
          lowest_price := round2 (colMin (data.map (·.Low)))
          average_price := round2 (colMean (data.map (·.Close)))
          price_change :=
            round2 (colLast (data.map (·.Close)) - colFirst (data.map (·.Open)))
          percentage_change :=
            PyFloat.round2F (PyFloat.mul (PyFloat.sub
              (PyFloat.div (colLast (data.map (·.Close)))
                           (colFirst (data.map (·.Open)))) 1) 100)
          average_volume := pyIntTrunc (colMean (data.map (·.Volume))) }

/-- The standard base64 alphabet, as used by `base64.b64encode`. -/
def b64Table : List Char :=
  "ABCDEFGHIJKLMNOPQRSTUVWXYZabcdefghijklmnopqrstuvwxyz0123456789+/".toList

/-- Character of a 6-bit group. -/
def b64c (i : Nat) : Char := b64Table.getD i 'A'

/-- `base64.b64encode` on a byte list (values < 256), as a character list:
groups of three bytes become four alphabet characters; a final group of
one or two bytes is padded with `=`. -/
def b64Chars : List Nat → List Char
  | [] => []
  | [a] => [b64c (a / 4), b64c (a % 4 * 16), '=', '=']
  | [a, b] => [b64c (a / 4), b64c (a % 4 * 16 + b / 16), b64c (b % 16 * 4), '=']
  | a :: b :: c :: rest =>
    b64c (a / 4) :: b64c (a % 4 * 16 + b / 16) ::
    b64c (b % 16 * 4 + c / 64) :: b64c (c % 64) :: b64Chars rest

/-- `base64.b64encode(bytes).decode()`. -/
def base64encode (bytes : List Nat) : String := String.mk (b64Chars bytes)

/-- Membership in the base64 alphabet (excluding the `=` pad). -/
def isB64Char (c : Char) : Bool := b64Table.contains c

/-- The data-URI prefix prepended by `plot_stock_price` (line 138). -/
def dataUriPrefix : String := "data:image/png;base64,"

/-- Embedding of `plot_stock_price` (lines 82–141).  `fetch` is the data
fetch outcome; `render` the outcome of the matplotlib figure/`savefig`
pipeline, producing the PNG bytes of the buffer on success.  Every
exception inside the `try` block lands in the handler of lines 140–141. -/
def plot_stock_price (ticker name start_date end_date : String)
    (fetch : Except String (List PriceRecord))
    (render : Except String (List Nat)) : String :=
  match parse_date start_date with
  | .error e => "Failed to create plot: " ++ e
  | .ok _ =>
    match parse_date end_date with
    | .error e => "Failed to create plot: " ++ e
    | .ok _ =>
      match fetch with
      | .error e => "Failed to create plot: " ++ e
      | .ok data =>
        if data.isEmpty then noDataMsg ticker
        else
          match render with
          | .error e => "Failed to create plot: " ++ e
          | .ok bytes => dataUriPrefix ++ base64encode bytes

/-- One per-ticker summary inside the comparison dictionary
(lines 170–181). -/
structure CompareLeg where
  ticker : String
  percentage_change : PyFloat
  price_change : ℚ
  final_price : ℚ
deriving DecidableEq, Repr

/-- The comparison dictionary built by `compare_stocks` (lines 168–194). -/
structure Comparison where
  comparison_period : String
  stock1 : CompareLeg
  stock2 : CompareLeg
  better_performer : String
  performance_difference : PyFloat
deriving DecidableEq, Repr

/-- The result of `compare_stocks`: the comparison dictionary, the
aggregated two-leg error dictionary of lines 162–166, or the outer
`except` dictionary of line 199. -/
inductive CompareResult where
  | ok : Comparison → CompareResult
  | legsError : String → String → String → CompareResult
  | error : String → CompareResult
deriving DecidableEq, Repr

/-- Embedding of `compare_stocks` (lines 143–199).  The two legs call
`get_stock_data` with the ticker doubling as the name; if either leg's
dictionary contains an `error` key, the aggregated error dictionary is
returned with each leg's message defaulted to `"No error"`.  The
`parse_date` calls of line 169 sit inside the outer `try`: were they to
raise, the handler of line 199 would produce `{"error": "Comparison
failed: ..."}`. -/
def compare_stocks (ticker1 ticker2 start_date end_date : String)
    (fetch1 fetch2 : Except String (List PriceRecord)) : CompareResult :=
  let stock1_data := get_stock_data ticker1 ticker1 start_date end_date fetch1
  let stock2_data := get_stock_data ticker2 ticker2 start_date end_date fetch2
  match stock1_data, stock2_data with
  | .error e1 _ _, .error e2 _ _ =>
    .legsError "Failed to get data for one or both stocks" e1 e2
  | .error e1 _ _, .ok _ =>
    .legsError "Failed to get data for one or both stocks" e1 "No error"
  | .ok _, .error e2 _ _ =>
    .legsError "Failed to get data for one or both stocks" "No error" e2
  | .ok s1, .ok s2 =>
      match parse_date start_date, parse_date end_date with
      | .ok ps, .ok pe =>
        let base : Comparison := {
          comparison_period := ps ++ " to " ++ pe
          stock1 := ⟨ticker1, s1.percentage_change, s1.price_change,
                     s1.closing_price⟩
          stock2 := ⟨ticker2, s2.percentage_change, s2.price_change,
                     s2.closing_price⟩
          better_performer := ""
          performance_difference := .nan }
        if PyFloat.gt s1.percentage_change s2.percentage_change then
          .ok { base with
            better_performer := ticker1
            performance_difference :=
              PyFloat.round2F (PyFloat.subF s1.percentage_change
                                            s2.percentage_change) }
        else
          .ok { base with
            better_performer := ticker2
            performance_difference :=
              PyFloat.round2F (PyFloat.subF s2.percentage_change
                                            s1.percentage_change) }
      | .error e, _ => .error ("Comparison failed: " ++ e)
      | _, .error e => .error ("Comparison failed: " ++ e)

/-- The live `stock.info` snapshot consumed by `read_stock_resource`.
The string-formatted fields are carried as their `str()` images; the
market cap is kept numeric because the code applies the thousands-grouping
format spec `:,` to it. A `none` field models a key absent from the
upstream dictionary, so that `info.get(key, 'N/A')` yields the
placeholder. -/
structure SnapshotInfo where
  longName : Option String
  sector : Option String
  industry : Option String
  currentPrice : Option String
  marketCap : Option Int
  fiftyTwoWeekHigh : Option String
  fiftyTwoWeekLow : Option String
deriving DecidableEq, Repr

/-- Insert a thousands separator into a reversed digit list. -/
def insertCommas : List Char → List Char
  | a :: b :: c :: d :: rest => a :: b :: c :: ',' :: insertCommas (d :: rest)
  | l => l

/-- Python `"{:,}".format(n)` on an integer: thousands-grouped decimal. -/
def commaGroup (n : Int) : String :=
  let digits := (toString n.natAbs).toList
  let grouped := String.mk ((insertCommas digits.reverse).reverse)
  if n < 0 then "-" ++ grouped else grouped

/-- The f-string field `{info.get('marketCap', 'N/A'):,}` (line 214): with
the key present the integer is thousands-grouped; with the key absent the
format spec `,` is applied to the *string* `'N/A'`, which raises
`ValueError("Cannot specify ',' with 's'.")`. -/
def formatMarketCap : Option Int → Except String String
  | some n => .ok (commaGroup n)
  | none => .error "Cannot specify ',' with 's'."

/-- The multi-line block of lines 208–217, given the already-formatted
market-cap field. -/
def stockInfoText (ticker : String) (info : SnapshotInfo) (mc : String) :
    String :=
  "\nStock Information for " ++ ticker ++ ":\n" ++
  "Company Name: " ++ info.longName.getD "N/A" ++ "\n" ++
  "Sector: " ++ info.sector.getD "N/A" ++ "\n" ++
  "Industry: " ++ info.industry.getD "N/A" ++ "\n" ++
  "Current Price: $" ++ info.currentPrice.getD "N/A" ++ "\n" ++
  "Market Cap: $" ++ mc ++ "\n" ++
  "52 Week High: $" ++ info.fiftyTwoWeekHigh.getD "N/A" ++ "\n" ++
  "52 Week Low: $" ++ info.fiftyTwoWeekLow.getD "N/A" ++ "\n        "

/-- Embedding of `read_stock_resource` (lines 201–219).  `fetchInfo` is the
outcome of `yf.Ticker(ticker).info`; both a fetch failure and the
market-cap formatting failure land in the handler of lines 218–219, which
always returns text. -/
def read_stock_resource (ticker : String)
    (fetchInfo : Except String SnapshotInfo) : String :=
  match fetchInfo with
  | .error e => "Error fetching stock resource: " ++ e
  | .ok info =>
    match formatMarketCap info.marketCap with
    | .error e => "Error fetching stock resource: " ++ e
    | .ok mc => stockInfoText ticker info mc

example : parse_date "01012024" = .ok "2024-01-01" := by decide
example : parse_date "02292024" = .ok "2024-02-29" := by decide
example : parse_date "02292023" = .error (invalidDateMsg "02292023") := by decide
example : parse_date "13012024" = .error (invalidDateMsg "13012024") := by decide
example : parse_date "010124" = .ok "0024-01-01" := by decide

/-! ### Helper lemmas: decimal digits and `parse_date` on well-formed tokens -/

theorem myDigitChar_isDigit {n : Nat} (h : n < 10) :
    (myDigitChar n).isDigit = true := by
  interval_cases n <;> decide

theorem myDigitChar_toNat {n : Nat} (h : n < 10) :
    (myDigitChar n).toNat = 48 + n := by
  interval_cases n <;> decide

theorem pyIntDigits_render2 {m : Nat} (h : m < 100) :
    pyIntDigits (render2 m) = some m := by
  have h1 : m / 10 < 10 := by omega
  have h2 : m % 10 < 10 := by omega
  simp [pyIntDigits, render2, List.all_cons, myDigitChar_isDigit h1,
    myDigitChar_isDigit h2, myDigitChar_toNat h1, myDigitChar_toNat h2]
  omega

theorem pyIntDigits_render4 {y : Nat} (h : y < 10000) :
    pyIntDigits (render4 y) = some y := by
  have h1 : y / 1000 < 10 := by omega
  have h2 : y / 100 % 10 < 10 := by omega
  have h3 : y / 10 % 10 < 10 := by omega
  have h4 : y % 10 < 10 := by omega
  simp [pyIntDigits, render4, List.all_cons, myDigitChar_isDigit h1,
    myDigitChar_isDigit h2, myDigitChar_isDigit h3, myDigitChar_isDigit h4,
    myDigitChar_toNat h1, myDigitChar_toNat h2, myDigitChar_toNat h3,
    myDigitChar_toNat h4]
  omega

/-- **C2.** For every 8-digit token `MMDDYYYY` (written as the two-digit
renderings of the month and day followed by the four-digit rendering of
the year) that decomposes into a real calendar date — month 1–12, day
valid for the month and year with leap years handled, year in the range
`datetime` accepts — `parse_date` returns the corresponding ISO date
string `YYYY-MM-DD`. -/
theorem c2_parse_date_valid (m d y : Nat) (h : datetimeValid y m d) :
    parse_date (String.mk (render2 m ++ render2 d ++ render4 y)) =
      .ok (isoFormat y m d) := by
  obtain ⟨hy1, hy2, hm1, hm2, hd1, hd2⟩ := h
  have hm : m < 100 := by omega
  have hd : d < 100 := by
    have : daysInMonth y m ≤ 31 := by
      unfold daysInMonth
      split <;> [split; split] <;> omega
    omega
  have hy : y < 10000 := by omega
  unfold parse_date
  have hcs : (String.mk (render2 m ++ render2 d ++ render4 y)).toList
      = render2 m ++ (render2 d ++ render4 y) := by
    simp [String.toList]
  rw [hcs]
  have t2 : (render2 m ++ (render2 d ++ render4 y)).take 2 = render2 m := by
    simp [render2]
  have d2 : (render2 m ++ (render2 d ++ render4 y)).drop 2
      = render2 d ++ render4 y := by
    simp [render2]
  have t4 : (render2 d ++ render4 y).take 2 = render2 d := by
    simp [render2]
  have d4 : (render2 m ++ (render2 d ++ render4 y)).drop 4 = render4 y := by
    simp [render2, render4]
  simp only [t2, d2, t4, d4, pyIntDigits_render2 hm, pyIntDigits_render2 hd,
    pyIntDigits_render4 hy]
  rw [if_pos ⟨hy1, hy2, hm1, hm2, hd1, hd2⟩]

/-- Witness for C2 at the leap-year example `"02292024"`. -/
theorem c2_parse_date_valid_witness :
    datetimeValid 2024 2 29 ∧ parse_date "02292024" = .ok "2024-02-29" := by
  refine ⟨by decide, ?_⟩
  have h := c2_parse_date_valid 2 29 2024 (by decide)
  exact h

/-- **C3** is a code bug: the 6-character token `"010124"`, which the spec
requires `parse_date` to reject as `InvalidDateFormat`, is accepted —
Python slicing imposes no length check, so the year slice is `"24"` and
`datetime(24, 1, 1)` succeeds, producing a year-24 date string instead of
an error. -/
theorem c3_short_token_accepted :
    parse_date "010124" = .ok "0024-01-01" ∧
      ∀ e, parse_date "010124" ≠ .error e := by
  refine ⟨by decide, ?_⟩
  intro e h
  rw [(by decide : parse_date "010124" = .ok "0024-01-01")] at h
  exact Except.noConfusion h

/-- **C6.** For every empty price series (dates having parsed, so the
fetch actually ran and returned an empty table), `get_stock_data` returns
the structured no-data result carrying the ticker and the name, and
`plot_stock_price` returns the no-data message — in the embedding both
are ordinary return values, not exceptions, whatever the render
collaborator would have done. -/
theorem c6_empty_series_no_data (ticker name start_date end_date ps pe :
      String)
    (render : Except String (List Nat))
    (hs : parse_date start_date = .ok ps)
    (he : parse_date end_date = .ok pe) :
    get_stock_data ticker name start_date end_date (.ok []) =
        .error (noDataMsg ticker) ticker name ∧
      plot_stock_price ticker name start_date end_date (.ok []) render =
        noDataMsg ticker := by
  unfold get_stock_data plot_stock_price
  rw [hs, he]
  exact ⟨rfl, rfl⟩

/-- Witness for C6 at a concrete ticker and date range. -/
theorem c6_empty_series_no_data_witness :
    get_stock_data "AAPL" "Apple" "01012023" "12312023" (.ok []) =
        .error (noDataMsg "AAPL") "AAPL" "Apple" ∧
      plot_stock_price "AAPL" "Apple" "01012023" "12312023" (.ok [])
          (.ok []) = noDataMsg "AAPL" :=
  c6_empty_series_no_data "AAPL" "Apple" "01012023" "12312023"
    "2023-01-01" "2023-12-31" (.ok []) (by decide) (by decide)

/-- **C7.** Each of the four remote-callable operations maps a raising
collaborator to a structured error value or a descriptive string instead
of propagating the exception: a raising fetch gives `get_stock_data` an
error dictionary carrying the ticker and name, gives `plot_stock_price` a
`"Failed to create plot: ..."` string, and gives `compare_stocks` the
aggregated legs-error dictionary; a raising render leaves
`plot_stock_price` with either the failure string or the no-data message;
and `read_stock_resource` turns a raising info fetch into error text, so
it always returns text to its caller. -/
theorem c7_no_unhandled_exceptions :
    (∀ t n sd ed e, ∃ m,
      get_stock_data t n sd ed (.error e) = .error m t n) ∧
    (∀ t n sd ed e render, ∃ m,
      plot_stock_price t n sd ed (.error e) render =
        "Failed to create plot: " ++ m) ∧
    (∀ t n sd ed fetch e,
      (∃ m, plot_stock_price t n sd ed fetch (.error e) =
        "Failed to create plot: " ++ m) ∨
      plot_stock_price t n sd ed fetch (.error e) = noDataMsg t) ∧
    (∀ t1 t2 sd ed e f2, ∃ m1 m2,
      compare_stocks t1 t2 sd ed (.error e) f2 =
        .legsError "Failed to get data for one or both stocks" m1 m2) ∧
    (∀ t e, read_stock_resource t (.error e) =
      "Error fetching stock resource: " ++ e) := by
  have hget : ∀ t n sd ed e, ∃ m,
      get_stock_data t n sd ed (.error e) = .error m t n := by
    intro t n sd ed e
    unfold get_stock_data
    cases parse_date sd with
    | error e1 => exact ⟨_, rfl⟩
    | ok _ =>
      cases parse_date ed with
      | error e2 => exact ⟨_, rfl⟩
      | ok _ => exact ⟨_, rfl⟩
  refine ⟨hget, ?_, ?_, ?_, ?_⟩
  · intro t n sd ed e render
    unfold plot_stock_price
    cases parse_date sd with
    | error e1 => exact ⟨_, rfl⟩
    | ok _ =>
      cases parse_date ed with
      | error e2 => exact ⟨_, rfl⟩
      | ok _ => exact ⟨_, rfl⟩
  · intro t n sd ed fetch e
    unfold plot_stock_price
    cases parse_date sd with
    | error e1 => exact .inl ⟨_, rfl⟩
    | ok _ =>
      cases parse_date ed with
      | error e2 => exact .inl ⟨_, rfl⟩
      | ok _ =>
        cases fetch with
        | error e3 => exact .inl ⟨_, rfl⟩
        | ok data =>
          by_cases hdata : data.isEmpty
          · exact .inr (by simp [hdata])
          · exact .inl ⟨e, by simp [hdata]⟩
  · intro t1 t2 sd ed e f2
    obtain ⟨m1, hm1⟩ := hget t1 t1 sd ed e
    unfold compare_stocks
    rw [hm1]
    cases h2 : get_stock_data t2 t2 sd ed f2 with
    | error e2 t2x n2x => exact ⟨m1, e2, rfl⟩
    | ok s2 => exact ⟨m1, "No error", rfl⟩
  · intro t e
    rfl

/-! ### Helper lemmas: column maxima, minima, last elements -/

theorem le_foldl_max (l : List ℚ) : ∀ b : ℚ, b ≤ l.foldl max b := by
  induction l with
  | nil => intro b; exact le_refl b
  | cons x xs ih => intro b; exact le_trans (le_max_left b x) (ih (max b x))

theorem mem_le_foldl_max (l : List ℚ) :
    ∀ (b a : ℚ), a ∈ l → a ≤ l.foldl max b := by
  induction l with
  | nil => intro b a h; cases h
  | cons x xs ih =>
    intro b a h
    rcases List.mem_cons.mp h with rfl | h2
    · exact le_trans (le_max_right b a) (le_foldl_max xs (max b a))
    · exact ih (max b x) a h2

theorem foldl_max_mem (l : List ℚ) :
    ∀ b : ℚ, l.foldl max b = b ∨ l.foldl max b ∈ l := by
  induction l with
  | nil => intro b; exact .inl rfl
  | cons x xs ih =>
    intro b
    rcases ih (max b x) with h | h
    · rcases max_choice b x with hm | hm
      · left; rw [List.foldl_cons, h, hm]
      · right; rw [List.foldl_cons, h, hm]; exact List.mem_cons_self x xs
    · right; exact List.mem_cons_of_mem x h

theorem foldl_min_le (l : List ℚ) : ∀ b : ℚ, l.foldl min b ≤ b := by
  induction l with
  | nil => intro b; exact le_refl b
  | cons x xs ih => intro b; exact le_trans (ih (min b x)) (min_le_left b x)

theorem foldl_min_le_mem (l : List ℚ) :
    ∀ (b a : ℚ), a ∈ l → l.foldl min b ≤ a := by
  induction l with
  | nil => intro b a h; cases h
  | cons x xs ih =>
    intro b a h
    rcases List.mem_cons.mp h with rfl | h2
    · exact le_trans (foldl_min_le xs (min b a)) (min_le_right b a)
    · exact ih (min b x) a h2

theorem foldl_min_mem (l : List ℚ) :
    ∀ b : ℚ, l.foldl min b = b ∨ l.foldl min b ∈ l := by
  induction l with
  | nil => intro b; exact .inl rfl
  | cons x xs ih =>
    intro b
    rcases ih (min b x) with h | h
    · rcases min_choice b x with hm | hm
      · left; rw [List.foldl_cons, h, hm]
      · right; rw [List.foldl_cons, h, hm]; exact List.mem_cons_self x xs
    · right; exact List.mem_cons_of_mem x h

theorem colMax_spec (x : ℚ) (xs : List ℚ) :
    (∀ a ∈ x :: xs, a ≤ colMax (x :: xs)) ∧ colMax (x :: xs) ∈ x :: xs := by
  constructor
  · intro a ha
    rcases List.mem_cons.mp ha with rfl | h
    · simpa [colMax] using le_foldl_max xs a
    · simpa [colMax] using mem_le_foldl_max xs x a h
  · rcases foldl_max_mem xs x with h | h
    · simp only [colMax, h]; exact List.mem_cons_self x xs
    · simp only [colMax]; exact List.mem_cons_of_mem x h

theorem colMin_spec (x : ℚ) (xs : List ℚ) :
    (∀ a ∈ x :: xs, colMin (x :: xs) ≤ a) ∧ colMin (x :: xs) ∈ x :: xs := by
  constructor
  · intro a ha
    rcases List.mem_cons.mp ha with rfl | h
    · simpa [colMin] using foldl_min_le xs a
    · simpa [colMin] using foldl_min_le_mem xs x a h
  · rcases foldl_min_mem xs x with h | h
    · simp only [colMin, h]; exact List.mem_cons_self x xs
    · simp only [colMin]; exact List.mem_cons_of_mem x h

theorem colLast_map_cons (f : PriceRecord → ℚ) :
    ∀ (l : List PriceRecord) (r : PriceRecord),
      colLast ((r :: l).map f) = f ((r :: l).getLastD r) := by
  intro l
  induction l with
  | nil => intro r; rfl
  | cons a l2 ih =>
    intro r
    simp only [List.map_cons, colLast, List.getLastD_cons] at ih ⊢
    simpa using ih a

set_option maxHeartbeats 2000000 in
/-- **C1.** For every non-empty price series (with the dates having parsed,
i.e. the fetch succeeded, and the opening price non-zero so the
percentage-change formula is defined), `get_stock_data` returns a
statistics record whose opening price is the first record's open, closing
price the last record's close, highest price the maximum of all highs,
lowest price the minimum of all lows, price change closing minus opening,
percentage change `((closing / opening) - 1) * 100`, each rounded to two
decimals by `round2`, mean close rounded likewise, and mean volume
integer-truncated. -/
theorem c1_stats_fields (ticker name start_date end_date ps pe : String)
    (r : PriceRecord) (rest : List PriceRecord)
    (hs : parse_date start_date = .ok ps)
    (he : parse_date end_date = .ok pe)
    (hopen : r.Open ≠ 0) :
    ∃ s, get_stock_data ticker name start_date end_date (.ok (r :: rest)) =
        .ok s ∧
      s.opening_price = round2 r.Open ∧
      s.closing_price = round2 ((r :: rest).getLastD r).Close ∧
      (∃ hi, s.highest_price = round2 hi ∧
        (∃ x ∈ r :: rest, x.High = hi) ∧ ∀ x ∈ r :: rest, x.High ≤ hi) ∧
      (∃ lo, s.lowest_price = round2 lo ∧
        (∃ x ∈ r :: rest, x.Low = lo) ∧ ∀ x ∈ r :: rest, lo ≤ x.Low) ∧
      s.average_price =
        round2 (((r :: rest).map (·.Close)).sum / ((r :: rest).length : ℚ)) ∧
      s.price_change = round2 (((r :: rest).getLastD r).Close - r.Open) ∧
      s.percentage_change =
        .finite (round2 ((((r :: rest).getLastD r).Close / r.Open - 1) * 100)) ∧
      s.average_volume =
        pyIntTrunc (((r :: rest).map (·.Volume)).sum / ((r :: rest).length : ℚ)) := by
  refine ⟨⟨ticker, name, ps, pe, (r :: rest).length,
    round2 (colFirst ((r :: rest).map (·.Open))),
    round2 (colLast ((r :: rest).map (·.Close))),
    round2 (colMax ((r :: rest).map (·.High))),
    round2 (colMin ((r :: rest).map (·.Low))),
    round2 (colMean ((r :: rest).map (·.Close))),
    round2 (colLast ((r :: rest).map (·.Close)) -
      colFirst ((r :: rest).map (·.Open))),
    PyFloat.round2F (PyFloat.mul (PyFloat.sub
      (PyFloat.div (colLast ((r :: rest).map (·.Close)))
        (colFirst ((r :: rest).map (·.Open)))) 1) 100),
    pyIntTrunc (colMean ((r :: rest).map (·.Volume)))⟩,
    ?_, ?_, ?_, ?_, ?_, ?_, ?_, ?_, ?_⟩
  · simp [get_stock_data, hs, he]
  · simp [colFirst]
  · rw [colLast_map_cons]
  · refine ⟨colMax ((r :: rest).map (·.High)), ?_, ?_, ?_⟩
    · rfl
    · have hmem := (colMax_spec (r.High) (rest.map (·.High))).2
      rw [← List.map_cons] at hmem
      obtain ⟨x, hx, hfx⟩ := List.mem_map.mp hmem
      exact ⟨x, hx, by rw [hfx, List.map_cons]⟩
    · intro x hx
      have hle := (colMax_spec (r.High) (rest.map (·.High))).1
      rw [← List.map_cons] at hle
      exact by simpa [List.map_cons] using hle x.High (List.mem_map_of_mem (·.High) hx)
  · refine ⟨colMin ((r :: rest).map (·.Low)), ?_, ?_, ?_⟩
    · rfl
    · have hmem := (colMin_spec (r.Low) (rest.map (·.Low))).2
      rw [← List.map_cons] at hmem
      obtain ⟨x, hx, hfx⟩ := List.mem_map.mp hmem
      exact ⟨x, hx, by rw [hfx, List.map_cons]⟩
    · intro x hx
      have hle := (colMin_spec (r.Low) (rest.map (·.Low))).1
      rw [← List.map_cons] at hle
      exact by simpa [List.map_cons] using hle x.Low (List.mem_map_of_mem (·.Low) hx)
  · simp [colMean]
  · rw [colLast_map_cons]
    simp [colFirst]
  · show PyFloat.round2F (PyFloat.mul (PyFloat.sub
      (PyFloat.div (colLast ((r :: rest).map (·.Close)))
        (colFirst ((r :: rest).map (·.Open)))) 1) 100) = _
    rw [colLast_map_cons]
    simp only [colFirst, List.map_cons, List.headD_cons,
      PyFloat.div, if_neg hopen, PyFloat.sub, PyFloat.mul, PyFloat.round2F]
  · simp [colMean]

/-- Witness for C1 on a concrete one-record series. -/
theorem c1_stats_fields_witness :
    ∃ s, get_stock_data "AAPL" "Apple" "01012023" "12312023"
        (.ok [⟨100, 115, 95, 112, 1000⟩]) = .ok s ∧
      s.opening_price = round2 (100 : ℚ) ∧
      s.closing_price = round2 (112 : ℚ) ∧
      (∃ hi, s.highest_price = round2 hi ∧
        (∃ x ∈ [(⟨100, 115, 95, 112, 1000⟩ : PriceRecord)], x.High = hi) ∧
        ∀ x ∈ [(⟨100, 115, 95, 112, 1000⟩ : PriceRecord)], x.High ≤ hi) ∧
      (∃ lo, s.lowest_price = round2 lo ∧
        (∃ x ∈ [(⟨100, 115, 95, 112, 1000⟩ : PriceRecord)], x.Low = lo) ∧
        ∀ x ∈ [(⟨100, 115, 95, 112, 1000⟩ : PriceRecord)], lo ≤ x.Low) ∧
      s.average_price = round2 ((112 : ℚ) / 1) ∧
      s.price_change = round2 ((112 : ℚ) - 100) ∧
      s.percentage_change = .finite (round2 (((112 : ℚ) / 100 - 1) * 100)) ∧
      s.average_volume = pyIntTrunc ((1000 : ℚ) / 1) := by
  have h := c1_stats_fields "AAPL" "Apple" "01012023" "12312023"
    "2023-01-01" "2023-12-31" ⟨100, 115, 95, 112, 1000⟩ []
    (by decide) (by decide) (by norm_num)
  simpa using h

/-- Division of any float by zero is non-finite. -/
theorem pyfloat_div_zero_nonfinite (a : ℚ) :
    PyFloat.div a 0 = .inf ∨ PyFloat.div a 0 = .ninf ∨
      PyFloat.div a 0 = .nan := by
  unfold PyFloat.div
  rcases lt_trichotomy a 0 with h | h | h
  · right; left; rw [if_pos rfl, if_neg (not_lt.mpr h.le), if_pos h]
  · right; right; rw [if_pos rfl, if_neg (by simp [h]), if_neg (by simp [h])]
  · left; rw [if_pos rfl, if_pos h]

/-- Non-finite values pass through the `- 1`, `* 100`, `round(.., 2)`
chain of the percentage-change computation unchanged. -/
theorem pyfloat_chain_nonfinite (x : PyFloat) (hx : x = .inf ∨ x = .ninf ∨ x = .nan) :
    PyFloat.round2F (PyFloat.mul (PyFloat.sub x 1) 100) = x := by
  rcases hx with rfl | rfl | rfl <;>
    simp [PyFloat.sub, PyFloat.mul, PyFloat.round2F] <;> norm_num

/-- **C10.** For every non-empty price series whose first record's open is
exactly 0 (dates having parsed so the statistics branch runs), the
percentage-change division in `get_stock_data` is unguarded: the result is
still the ordinary statistics record — not a structured error — and its
`percentage_change` field is the value of the division-by-zero chain, a
non-finite float (never `finite`). -/
theorem c10_zero_open_unguarded (ticker name start_date end_date ps pe :
      String)
    (r : PriceRecord) (rest : List PriceRecord)
    (hs : parse_date start_date = .ok ps)
    (he : parse_date end_date = .ok pe)
    (hopen : r.Open = 0) :
    ∃ s, get_stock_data ticker name start_date end_date (.ok (r :: rest)) =
        .ok s ∧
      s.percentage_change =
        PyFloat.round2F (PyFloat.mul (PyFloat.sub
          (PyFloat.div (colLast ((r :: rest).map (·.Close))) 0) 1) 100) ∧
      ∀ q : ℚ, s.percentage_change ≠ .finite q := by
  refine ⟨⟨ticker, name, ps, pe, (r :: rest).length,
    round2 (colFirst ((r :: rest).map (·.Open))),
    round2 (colLast ((r :: rest).map (·.Close))),
    round2 (colMax ((r :: rest).map (·.High))),
    round2 (colMin ((r :: rest).map (·.Low))),
    round2 (colMean ((r :: rest).map (·.Close))),
    round2 (colLast ((r :: rest).map (·.Close)) -
      colFirst ((r :: rest).map (·.Open))),
    PyFloat.round2F (PyFloat.mul (PyFloat.sub
      (PyFloat.div (colLast ((r :: rest).map (·.Close)))
        (colFirst ((r :: rest).map (·.Open)))) 1) 100),
    pyIntTrunc (colMean ((r :: rest).map (·.Volume)))⟩, ?_, ?_, ?_⟩
  · simp [get_stock_data, hs, he]
  · show PyFloat.round2F (PyFloat.mul (PyFloat.sub
      (PyFloat.div (colLast ((r :: rest).map (·.Close)))
        (colFirst ((r :: rest).map (·.Open)))) 1) 100) = _
    simp [colFirst, hopen]
  · intro q
    show PyFloat.round2F (PyFloat.mul (PyFloat.sub
      (PyFloat.div (colLast ((r :: rest).map (·.Close)))
        (colFirst ((r :: rest).map (·.Open)))) 1) 100) ≠ .finite q
    have hz : colFirst ((r :: rest).map (·.Open)) = 0 := by
      simp [colFirst, hopen]
    rw [hz]
    have hnf := pyfloat_div_zero_nonfinite (colLast ((r :: rest).map (·.Close)))
    rw [pyfloat_chain_nonfinite _ hnf]
    rcases hnf with h | h | h <;> rw [h] <;> exact PyFloat.noConfusion

/-- Witness for C10 on a one-record series with opening price 0. -/
theorem c10_zero_open_unguarded_witness :
    ∃ s, get_stock_data "ZERO" "Zero Open" "01012023" "12312023"
        (.ok [⟨0, 10, 0, 5, 100⟩]) = .ok s ∧
      s.percentage_change =
        PyFloat.round2F (PyFloat.mul (PyFloat.sub
          (PyFloat.div (colLast ([(⟨0, 10, 0, 5, 100⟩ : PriceRecord)].map
            (·.Close))) 0) 1) 100) ∧
      ∀ q : ℚ, s.percentage_change ≠ .finite q :=
  c10_zero_open_unguarded "ZERO" "Zero Open" "01012023" "12312023"
    "2023-01-01" "2023-12-31" ⟨0, 10, 0, 5, 100⟩ []
    (by decide) (by decide) rfl

/-- If `get_stock_data` returned the statistics dictionary, both of its
`parse_date` calls succeeded. -/
theorem get_stock_data_ok_parse {ticker name sd ed f s}
    (h : get_stock_data ticker name sd ed f = .ok s) :
    (∃ ps, parse_date sd = .ok ps) ∧ ∃ pe, parse_date ed = .ok pe := by
  unfold get_stock_data at h
  cases hps : parse_date sd with
  | error e => rw [hps] at h; exact StockDataResult.noConfusion h
  | ok ps =>
    rw [hps] at h
    cases hpe : parse_date ed with
    | error e => rw [hpe] at h; exact StockDataResult.noConfusion h
    | ok pe => exact ⟨⟨ps, rfl⟩, ⟨pe, rfl⟩⟩

/-- **C4.** For every pair of successful per-ticker statistics results
(with finite percentage changes, where the comparison is numerically
defined), `compare_stocks` names as `better_performer` the ticker whose
percentage change is strictly greater, defaulting to `ticker2` when the
two are exactly equal, and its `performance_difference` is the absolute
value of the difference of the two percentage changes, rounded to two
decimals. -/
theorem c4_compare_winner (ticker1 ticker2 start_date end_date : String)
    (fetch1 fetch2 : Except String (List PriceRecord))
    (s1 s2 : StockStats) (q1 q2 : ℚ)
    (h1 : get_stock_data ticker1 ticker1 start_date end_date fetch1 = .ok s1)
    (h2 : get_stock_data ticker2 ticker2 start_date end_date fetch2 = .ok s2)
    (hq1 : s1.percentage_change = .finite q1)
    (hq2 : s2.percentage_change = .finite q2) :
    ∃ c, compare_stocks ticker1 ticker2 start_date end_date fetch1 fetch2 =
        .ok c ∧
      c.better_performer = (if q2 < q1 then ticker1 else ticker2) ∧
      (q1 = q2 → c.better_performer = ticker2) ∧
      c.performance_difference = .finite (round2 |q1 - q2|) := by
  obtain ⟨⟨ps, hps⟩, ⟨pe, hpe⟩⟩ := get_stock_data_ok_parse h1
  by_cases hlt : q2 < q1
  · refine ⟨⟨ps ++ " to " ++ pe,
      ⟨ticker1, s1.percentage_change, s1.price_change, s1.closing_price⟩,
      ⟨ticker2, s2.percentage_change, s2.price_change, s2.closing_price⟩,
      ticker1,
      PyFloat.round2F (PyFloat.subF s1.percentage_change
        s2.percentage_change)⟩, ?_, ?_, ?_, ?_⟩
    · simp only [compare_stocks, h1, h2, hps, hpe, hq1, hq2, PyFloat.gt,
        decide_eq_true_eq]
      rw [if_pos hlt]
    · rw [if_pos hlt]
    · intro heq; exact absurd (heq ▸ hlt) (lt_irrefl _)
    · rw [hq1, hq2]
      show PyFloat.finite (round2 (q1 - q2)) = _
      rw [abs_of_nonneg (by linarith : (0:ℚ) ≤ q1 - q2)]
  · refine ⟨⟨ps ++ " to " ++ pe,
      ⟨ticker1, s1.percentage_change, s1.price_change, s1.closing_price⟩,
      ⟨ticker2, s2.percentage_change, s2.price_change, s2.closing_price⟩,
      ticker2,
      PyFloat.round2F (PyFloat.subF s2.percentage_change
        s1.percentage_change)⟩, ?_, ?_, ?_, ?_⟩
    · simp only [compare_stocks, h1, h2, hps, hpe, hq1, hq2, PyFloat.gt,
        decide_eq_true_eq]
      rw [if_neg hlt]
    · rw [if_neg hlt]
    · intro _; rfl
    · rw [hq1, hq2]
      show PyFloat.finite (round2 (q2 - q1)) = _
      rw [abs_sub_comm, abs_of_nonneg (by linarith : (0:ℚ) ≤ q2 - q1)]

/-- `ratFloor` is the identity on integers. -/
theorem ratFloor_intCast (n : ℤ) : ratFloor (n : ℚ) = n := by
  simp [ratFloor]

/-- Half-even rounding is the identity on integers. -/
theorem roundHalfEven_intCast (n : ℤ) : roundHalfEven (n : ℚ) = n := by
  unfold roundHalfEven
  rw [ratFloor_intCast]
  rw [if_pos (by norm_num : (n : ℚ) - (n : ℤ) < 1 / 2)]

/-- `round(x, 2)` is the identity on integer values. -/
theorem round2_intCast (n : ℤ) : round2 ((n : ℤ) : ℚ) = (n : ℚ) := by
  unfold round2
  rw [(by push_cast; ring : ((n : ℤ) : ℚ) * 100 = (((n * 100 : ℤ)) : ℚ)),
    roundHalfEven_intCast]
  push_cast
  field_simp

/-- Witness for C4: AAPL gains 12%, MSFT 8%, so AAPL wins by 4. -/
theorem c4_compare_winner_witness :
    ∃ c, compare_stocks "AAPL" "MSFT" "01012023" "12312023"
        (.ok [⟨100, 115, 95, 112, 1000⟩]) (.ok [⟨100, 110, 90, 108, 2000⟩]) =
        .ok c ∧
      c.better_performer = (if (8 : ℚ) < 12 then "AAPL" else "MSFT") ∧
      ((12 : ℚ) = 8 → c.better_performer = "MSFT") ∧
      c.performance_difference = .finite (round2 |(12 : ℚ) - 8|) := by
  have h12 : round2 (12 : ℚ) = 12 := by exact_mod_cast round2_intCast 12
  have h8 : round2 (8 : ℚ) = 8 := by exact_mod_cast round2_intCast 8
  refine c4_compare_winner "AAPL" "MSFT" "01012023" "12312023" _ _ _ _ 12 8
    rfl rfl ?_ ?_
  · norm_num [colLast, colFirst, List.getLastD_cons, PyFloat.div,
      PyFloat.sub, PyFloat.mul, PyFloat.round2F, h12]
  · norm_num [colLast, colFirst, List.getLastD_cons, PyFloat.div,
      PyFloat.sub, PyFloat.mul, PyFloat.round2F, h8]

/-- **C5.** Whenever either leg of `compare_stocks` reports an error
dictionary (no-data or failure), the operation returns the aggregated
error structure whose `stock1_error` / `stock2_error` fields carry each
leg's message (`"No error"` for a leg that succeeded), and the result is
not the comparison dictionary — so none of the succeeding leg's numeric
fields appear. -/
theorem c5_compare_error_aggregation (ticker1 ticker2 start_date end_date :
      String)
    (fetch1 fetch2 : Except String (List PriceRecord))
    (h : (get_stock_data ticker1 ticker1 start_date end_date
            fetch1).errorMsg.isSome ∨
         (get_stock_data ticker2 ticker2 start_date end_date
            fetch2).errorMsg.isSome) :
    compare_stocks ticker1 ticker2 start_date end_date fetch1 fetch2 =
      .legsError "Failed to get data for one or both stocks"
        ((get_stock_data ticker1 ticker1 start_date end_date
            fetch1).errorMsg.getD "No error")
        ((get_stock_data ticker2 ticker2 start_date end_date
            fetch2).errorMsg.getD "No error") ∧
    ∀ c, compare_stocks ticker1 ticker2 start_date end_date fetch1 fetch2 ≠
        .ok c := by
  have hmain : compare_stocks ticker1 ticker2 start_date end_date fetch1
      fetch2 =
      .legsError "Failed to get data for one or both stocks"
        ((get_stock_data ticker1 ticker1 start_date end_date
            fetch1).errorMsg.getD "No error")
        ((get_stock_data ticker2 ticker2 start_date end_date
            fetch2).errorMsg.getD "No error") := by
    cases hA : get_stock_data ticker1 ticker1 start_date end_date fetch1 with
    | error e1 tA nA =>
      cases hB : get_stock_data ticker2 ticker2 start_date end_date fetch2 with
      | error e2 tB nB =>
        simp [compare_stocks, hA, hB, StockDataResult.errorMsg]
      | ok s2 =>
        simp [compare_stocks, hA, hB, StockDataResult.errorMsg]
    | ok s1 =>
      cases hB : get_stock_data ticker2 ticker2 start_date end_date fetch2 with
      | error e2 tB nB =>
        simp [compare_stocks, hA, hB, StockDataResult.errorMsg]
      | ok s2 =>
        rw [hA, hB] at h
        simp [StockDataResult.errorMsg] at h
  exact ⟨hmain, fun c hc => by
    rw [hmain] at hc; exact CompareResult.noConfusion hc⟩

/-- Witness for C5: the first leg gets an empty series (no data), the
second succeeds. -/
theorem c5_compare_error_aggregation_witness :
    compare_stocks "AAPL" "MSFT" "01012023" "12312023" (.ok [])
        (.ok [⟨100, 110, 90, 108, 2000⟩]) =
      .legsError "Failed to get data for one or both stocks"
        ((get_stock_data "AAPL" "AAPL" "01012023" "12312023"
            (.ok [])).errorMsg.getD "No error")
        ((get_stock_data "MSFT" "MSFT" "01012023" "12312023"
            (.ok [⟨100, 110, 90, 108, 2000⟩])).errorMsg.getD "No error") ∧
    ∀ c, compare_stocks "AAPL" "MSFT" "01012023" "12312023" (.ok [])
        (.ok [⟨100, 110, 90, 108, 2000⟩]) ≠ .ok c :=
  c5_compare_error_aggregation "AAPL" "MSFT" "01012023" "12312023"
    (.ok []) (.ok [⟨100, 110, 90, 108, 2000⟩]) (.inl rfl)

/-- Every character produced by the base64 table lookup is in the base64
alphabet (the out-of-range default is also an alphabet character). -/
theorem b64c_valid (i : Nat) : isB64Char (b64c i) = true := by
  rcases hg : b64Table.get? i with _ | x
  · have h1 : b64c i = 'A' := by
      simp [b64c, List.getD_eq_getElem?_getD, ← List.get?_eq_getElem?, hg]
    rw [h1]; decide
  · have h1 : b64c i = x := by
      simp [b64c, List.getD_eq_getElem?_getD, ← List.get?_eq_getElem?, hg]
    have hx : x ∈ b64Table := List.get?_mem hg
    rw [h1]
    unfold isB64Char
    exact List.elem_eq_true_of_mem hx

/-- The base64 encoding of any byte list has length divisible by 4. -/
theorem b64Chars_length (l : List Nat) : (b64Chars l).length % 4 = 0 := by
  match l with
  | [] => rfl
  | [a] => simp [b64Chars]
  | [a, b] => simp [b64Chars]
  | a :: b :: c :: rest =>
    have ih := b64Chars_length rest
    simp only [b64Chars, List.length_cons]
    omega

/-- Every character of the base64 encoding is an alphabet character or the
padding character. -/
theorem b64Chars_valid (l : List Nat) :
    ∀ c ∈ b64Chars l, isB64Char c = true ∨ c = '=' := by
  match l with
  | [] => intro c hc; simp [b64Chars] at hc
  | [a] =>
    intro c hc
    simp only [b64Chars, List.mem_cons, List.not_mem_nil, or_false] at hc
    rcases hc with rfl | rfl | rfl | rfl
    · exact .inl (b64c_valid _)
    · exact .inl (b64c_valid _)
    · exact .inr rfl
    · exact .inr rfl
  | [a, b] =>
    intro c hc
    simp only [b64Chars, List.mem_cons, List.not_mem_nil, or_false] at hc
    rcases hc with rfl | rfl | rfl | rfl
    · exact .inl (b64c_valid _)
    · exact .inl (b64c_valid _)
    · exact .inl (b64c_valid _)
    · exact .inr rfl
  | a :: b :: c2 :: rest =>
    intro c hc
    simp only [b64Chars, List.mem_cons] at hc
    rcases hc with rfl | rfl | rfl | rfl | hm
    · exact .inl (b64c_valid _)
    · exact .inl (b64c_valid _)
    · exact .inl (b64c_valid _)
    · exact .inl (b64c_valid _)
    · exact b64Chars_valid rest c hm

/-- The no-data message never has the data-URI prefix: its first character
is `N`, the prefix starts with `d`. -/
theorem noDataMsg_ne_dataUri (t rem : String) :
    noDataMsg t ≠ dataUriPrefix ++ rem := by
  intro h
  have hL : (noDataMsg t).data.head? = some 'N' := rfl
  have hR : (dataUriPrefix ++ rem).data.head? = some 'd' := rfl
  rw [h, hR] at hL
  exact Option.noConfusion hL fun hc => Char.noConfusion hc fun hv => by
    exact absurd hv (by decide)

/-- **C8.** For every non-empty price series (dates parsed, render
succeeded), the string returned by `plot_stock_price` is exactly the
prefix `data:image/png;base64,` followed by the base64 encoding of the
rendered PNG bytes, whose characters are base64-alphabet characters or
padding and whose length is a multiple of four; while the empty-series
message never carries that prefix, so callers can distinguish the two
cases. -/
theorem c8_plot_data_uri (ticker name start_date end_date ps pe : String)
    (bytes : List Nat) (r : PriceRecord) (rest : List PriceRecord)
    (hs : parse_date start_date = .ok ps)
    (he : parse_date end_date = .ok pe) :
    plot_stock_price ticker name start_date end_date (.ok (r :: rest))
        (.ok bytes) = dataUriPrefix ++ base64encode bytes ∧
    (base64encode bytes).data.length % 4 = 0 ∧
    (∀ c ∈ (base64encode bytes).data, isB64Char c = true ∨ c = '=') ∧
    ∀ rem : String, noDataMsg ticker ≠ dataUriPrefix ++ rem := by
  refine ⟨?_, ?_, ?_, fun rem => noDataMsg_ne_dataUri ticker rem⟩
  · simp [plot_stock_price, hs, he]
  · exact b64Chars_length bytes
  · exact b64Chars_valid bytes

/-- Witness for C8 on the PNG magic bytes. -/
theorem c8_plot_data_uri_witness :
    plot_stock_price "AAPL" "Apple" "01012023" "12312023"
        (.ok [⟨100, 115, 95, 112, 1000⟩]) (.ok [137, 80, 78, 71]) =
      dataUriPrefix ++ base64encode [137, 80, 78, 71] ∧
    (base64encode [137, 80, 78, 71]).data.length % 4 = 0 ∧
    (∀ c ∈ (base64encode [137, 80, 78, 71]).data,
      isB64Char c = true ∨ c = '=') ∧
    ∀ rem : String, noDataMsg "AAPL" ≠ dataUriPrefix ++ rem :=
  c8_plot_data_uri "AAPL" "Apple" "01012023" "12312023"
    "2023-01-01" "2023-12-31" [137, 80, 78, 71] ⟨100, 115, 95, 112, 1000⟩ []
    (by decide) (by decide)

/-- **C9 counterexample.** A snapshot in which only the market cap is
absent (every other field present) does change the outcome into an error:
the thousands-grouping format spec `:,` is applied to the placeholder
string, raises, and the handler returns the caught-error text instead of
the formatted block. -/
theorem c9_missing_marketcap_counterexample :
    read_stock_resource "AAPL"
        (.ok ⟨some "Apple Inc.", some "Technology",
          some "Consumer Electronics", some "211.16", none,
          some "237.23", some "164.08"⟩) =
      "Error fetching stock resource: Cannot specify ',' with 's'." ∧
    read_stock_resource "AAPL"
        (.ok ⟨some "Apple Inc.", some "Technology",
          some "Consumer Electronics", some "211.16", none,
          some "237.23", some "164.08"⟩) ≠
      stockInfoText "AAPL"
        ⟨some "Apple Inc.", some "Technology",
          some "Consumer Electronics", some "211.16", none,
          some "237.23", some "164.08"⟩ "N/A" := by
  constructor
  · rfl
  · decide

/-- **C9 (amended).** When the market cap is present, `read_stock_resource`
returns the formatted block with the `N/A` placeholder substituted for
each absent field; when the market cap itself is absent, the `:,` format
spec fails on the placeholder string and the operation returns the
caught-error text (still text, never an exception). -/
theorem c9_placeholders_except_marketcap (ticker : String)
    (info : SnapshotInfo) (m : ℤ) (hm : info.marketCap = some m) :
    read_stock_resource ticker (.ok info) =
        stockInfoText ticker info (commaGroup m) ∧
    ∀ info2 : SnapshotInfo, info2.marketCap = none →
      read_stock_resource ticker (.ok info2) =
        "Error fetching stock resource: Cannot specify ',' with 's'." := by
  constructor
  · simp [read_stock_resource, formatMarketCap, hm]
  · intro info2 h2
    simp [read_stock_resource, formatMarketCap, h2]

/-- Witness for the amended C9: every optional text field absent, market
cap present. -/
theorem c9_placeholders_except_marketcap_witness :
    read_stock_resource "AAPL" (.ok ⟨none, none, none, none,
        some 3000000000000, none, none⟩) =
      stockInfoText "AAPL" ⟨none, none, none, none,
        some 3000000000000, none, none⟩ (commaGroup 3000000000000) ∧
    ∀ info2 : SnapshotInfo, info2.marketCap = none →
      read_stock_resource "AAPL" (.ok info2) =
        "Error fetching stock resource: Cannot specify ',' with 's'." :=
  c9_placeholders_except_marketcap "AAPL"
    ⟨none, none, none, none, some 3000000000000, none, none⟩
    3000000000000 rfl
